import Mathlib

/-!
Verification of the video-normalization pipeline (src/main.py, src/verify.py).

The definitions below are a shallow embedding of the two Python source
files.  External effects (the ffprobe inspection tool, the ffmpeg engine,
the filesystem) are modelled by explicit data passed in: a probe response
is an optional record of optional string fields (`none` = the field is
absent from the JSON response / the probe failed), and the per-file
environment records whether the input exists, the probe response and the
encode result.
-/

namespace VideoNorm

/-- A successful ffprobe response for one stream: each of the four requested
fields may be absent from the JSON output (`none`).  Mirrors the dict
returned by `get_video_info` in src/main.py and `get_metadata` in
src/verify.py. -/
structure ProbeInfo where
  color_transfer : Option String
  color_space : Option String
  color_primaries : Option String
  pix_fmt : Option String
deriving DecidableEq

/-- The four metadata values as `build_ffmpeg_command` (src/main.py lines
54-61) extracts them from the probe response:
`transfer = info.get("color_transfer", "unknown")` (no lowercasing),
`color_space = (info.get("color_space") or "").lower()`, and likewise for
`color_primaries` and `pix_fmt`. -/
structure StreamMetadata where
  transfer : String
  colorSpace : String
  primaries : String
  pixelFormat : String
deriving DecidableEq

/-- Character-wise ASCII lowercasing, modelling Python's `str.lower()` on
the ASCII field values ffprobe emits. -/
def lowerStr (s : String) : String :=
  String.mk (s.toList.map Char.toLower)

/-- Field extraction of `build_ffmpeg_command`: transfer defaults to
"unknown" and keeps its case; the other three default to "" and are
lowercased. -/
def mkMetadata (info : ProbeInfo) : StreamMetadata where
  transfer := info.color_transfer.getD "unknown"
  colorSpace := lowerStr (info.color_space.getD "")
  primaries := lowerStr (info.color_primaries.getD "")
  pixelFormat := lowerStr (info.pix_fmt.getD "")

/-- Boolean substring containment, modelling Python's `"pat" in s`. -/
def containsSub (s pat : String) : Bool :=
  (List.range (s.toList.length + 1)).any (fun i => pat.toList.isPrefixOf (s.toList.drop i))

/-- The fixed pixel-format set of `is_hdr` (src/main.py lines 37-41). -/
def hdr_pix_fmt_set : List String :=
  ["p010le", "p016le",
   "yuv420p10le", "yuv422p10le", "yuv444p10le",
   "yuv420p12le", "yuv422p12le", "yuv444p12le"]

/-- `is_hdr` from src/main.py lines 35-44. -/
def is_hdr (transfer color_space primaries pix_fmt : String) : Bool :=
  let hdr_like_colors := containsSub primaries "bt2020" || containsSub color_space "bt2020"
  let hdr_like_bitdepth := hdr_pix_fmt_set.contains pix_fmt
      || containsSub pix_fmt "10le" || containsSub pix_fmt "12le"
  (!(transfer == "arib-std-b67" || transfer == "smpte2084"))
    && (hdr_like_colors || hdr_like_bitdepth)

/-- The four classifications realized by the branch structure of
`build_ffmpeg_command` (spec names each branch's profile). -/
inductive ColorProfile where
  | HLG
  | PQ
  | HeuristicHDR
  | SDR
deriving DecidableEq

/-- The branch selection of `build_ffmpeg_command` (src/main.py lines
63-107): first `transfer == "arib-std-b67"`, then `transfer ==
"smpte2084"`, then `is_probably_hdr`, else SDR. -/
def classify (m : StreamMetadata) : ColorProfile :=
  if m.transfer == "arib-std-b67" then .HLG
  else if m.transfer == "smpte2084" then .PQ
  else if is_hdr m.transfer m.colorSpace m.primaries m.pixelFormat then .HeuristicHDR
  else .SDR

/-- The `filter_chain` string chosen in each branch of
`build_ffmpeg_command`, transcribed literally (the Python adjacent string
literals are concatenations). -/
def filter_chain : ColorProfile → String
  | .HLG =>
      "zscale=t=linear:npl=100,format=gbrpf32le," ++
      "zscale=p=bt709," ++
      "tonemap=tonemap=hable:desat=0," ++
      "zscale=t=bt709:m=bt709:r=tv,format=yuv420p"
  | .PQ =>
      "format=p010le," ++
      "zscale=t=linear:npl=100,format=gbrpf32le," ++
      "zscale=p=bt709," ++
      "tonemap=tonemap=hable:desat=0," ++
      "zscale=t=bt709:m=bt709:r=tv,format=yuv420p"
  | .HeuristicHDR =>
      "format=p010le," ++
      "zscale=t=linear:npl=100,format=gbrpf32le," ++
      "zscale=p=bt709," ++
      "tonemap=tonemap=hable:desat=0," ++
      "zscale=t=bt709:m=bt709:r=tv,format=yuv420p"
  | .SDR => "colorspace=all=bt709:trc=bt709:format=yuv420p"

/-- Splits a character list at commas (helper for `splitComma`). -/
def splitCommaAux : List Char → List Char → List String
  | [], acc => [String.mk acc.reverse]
  | c :: cs, acc =>
      if c == ',' then String.mk acc.reverse :: splitCommaAux cs []
      else splitCommaAux cs (c :: acc)

/-- Splits a string at commas: an ffmpeg filter chain is the
comma-separated list of its filter stages. -/
def splitComma (s : String) : List String :=
  splitCommaAux s.toList []

/-- The ordered filter stages of a profile's plan: the ffmpeg filter chain
is a comma-separated list of stages. -/
def planStages (p : ColorProfile) : List String :=
  splitComma (filter_chain p)

/-- Order-preserving containment of stages in a plan (subsequence test). -/
def isSubseqOf : List String → List String → Bool
  | [], _ => true
  | _ :: _, [] => false
  | a :: as, b :: bs => if a == b then isSubseqOf as bs else isSubseqOf (a :: as) bs

/-! ## Verifier (src/verify.py) -/

/-- One entry of the `errors` list built by `check_file` in src/verify.py:
the field name with its expected and actual values. -/
structure Mismatch where
  field : String
  expected : String
  actual : String
deriving DecidableEq

/-- One iteration of the comparison loop of `check_file` (src/verify.py
lines 42-48): `actual_value = data.get(key, "unknown")`; a mismatch entry
is recorded when it differs from the expected value. -/
def mismatchFor (key expected_value : String) (actual : Option String) : List Mismatch :=
  let actual_value := actual.getD "unknown"
  if actual_value ≠ expected_value then [⟨key, expected_value, actual_value⟩] else []

/-- The comparison loop of `check_file` unrolled over the `expected` dict,
which Python iterates in insertion order: pix_fmt, color_space,
color_primaries, color_transfer. -/
def mismatches (d : ProbeInfo) : List Mismatch :=
  mismatchFor "pix_fmt" "yuv420p" d.pix_fmt
    ++ mismatchFor "color_space" "bt709" d.color_space
    ++ mismatchFor "color_primaries" "bt709" d.color_primaries
    ++ mismatchFor "color_transfer" "bt709" d.color_transfer

/-- `check_file` from src/verify.py: `none` models the metadata-read
exception path (returns False); otherwise the file passes iff the errors
list is empty. -/
def check_file : Option ProbeInfo → Bool
  | none => false
  | some d => (mismatches d).isEmpty

/-- The three terminal conditions of the verifier's `main`
(src/verify.py lines 60-76). -/
inductive VerifyOutcome where
  | noFiles
  | allPassed
  | someFailed
deriving DecidableEq

/-- `main` of src/verify.py over the glob result, each element being the
probe data of one found output file (`none` = unreadable metadata). -/
def verify_main (files : List (Option ProbeInfo)) : VerifyOutcome :=
  if files.isEmpty then .noFiles
  else if files.all check_file then .allPassed else .someFailed

/-- The `sys.exit` code of each terminal condition of the verifier. -/
def verifyExitCode : VerifyOutcome → Nat
  | .noFiles => 1
  | .allPassed => 0
  | .someFailed => 1

/-! ## Orchestrator (src/main.py `process_single_file` and `main`) -/

/-- Index of the last occurrence of a character, modelling Python's
`str.rfind`. -/
def rfindIdx : List Char → Char → Option Nat
  | [], _ => none
  | a :: as, c =>
      match rfindIdx as c with
      | some i => some (i + 1)
      | none => if a == c then some 0 else none

/-- `pathlib.PurePath.suffix`: the substring from the last dot on, when
that dot is neither the first nor the last character of the name;
otherwise empty. -/
def pathSuffix (name : String) : String :=
  match rfindIdx name.toList '.' with
  | some i =>
      if 0 < i ∧ i < name.toList.length - 1 then String.mk (name.toList.drop i) else ""
  | none => ""

/-- `pathlib.PurePath.stem`: the name with `pathSuffix` removed. -/
def pathStem (name : String) : String :=
  match rfindIdx name.toList '.' with
  | some i =>
      if 0 < i ∧ i < name.toList.length - 1 then String.mk (name.toList.take i) else name
  | none => name

/-- Batch-mode output naming (src/main.py line 167):
`video_file.stem + "_normalized" + video_file.suffix`. -/
def outputName (name : String) : String :=
  pathStem name ++ "_normalized" ++ pathSuffix name

/-- The `supported_ext` allow-list of `main` (src/main.py line 160). -/
def supported_ext : List String := [".mp4", ".mov", ".mkv", ".avi"]

/-- The directory-scan filter of `main` (src/main.py lines 161-162):
`f.suffix.lower() in supported_ext`. -/
def isSupportedName (name : String) : Bool :=
  supported_ext.contains (lowerStr (pathSuffix name))

/-- Environment of one directory entry: its name, whether
`os.path.exists` holds for it, the probe response (`none` = the ffprobe
call fails or its output has no parseable stream, the `except` branch of
`get_video_info`), and whether the ffmpeg invocation would succeed. -/
structure FileEnv where
  name : String
  present : Bool
  probe : Option ProbeInfo
  encodeOk : Bool
deriving DecidableEq

/-- Per-file outcome of `process_single_file` when it returns normally. -/
inductive FileOutcome where
  | skippedMissing
  | encoded
  | encodeFailed
deriving DecidableEq

/-- `process_single_file` from src/main.py: a missing input is reported
and skipped; then `build_ffmpeg_command` probes the file, and
`get_video_info` calls `sys.exit(1)` on probe failure (modelled as
`Except.error 1`, terminating the process); an encode failure is caught
(`subprocess.CalledProcessError`) and the function returns. -/
def process_single_file (g : FileEnv) : Except Nat FileOutcome :=
  if g.present = false then .ok .skippedMissing
  else
    match g.probe with
    | none => .error 1
    | some _ => if g.encodeOk then .ok .encoded else .ok .encodeFailed

/-- The outcome `process_single_file` yields when it does not terminate
the process. -/
def stepOutcome (g : FileEnv) : FileOutcome :=
  if g.present = false then .skippedMissing
  else if g.encodeOk then .encoded else .encodeFailed

/-- The batch loop of `main` (src/main.py lines 165-169): processes files
in order, recording (input name, output name, outcome); a `sys.exit`
raised inside `process_single_file` terminates the process immediately
with that exit code, otherwise the loop completes and `main` returns
(process exit code 0). -/
def runBatch : List FileEnv → List (String × String × FileOutcome) × Nat
  | [] => ([], 0)
  | g :: gs =>
      match process_single_file g with
      | .error c => ([], c)
      | .ok o =>
          let r := runBatch gs
          ((g.name, outputName g.name, o) :: r.1, r.2)

/-- Observable result of a directory-mode run: whether the "No video
files found" message was printed, which jobs were processed (with their
output names and outcomes), and the process exit code. -/
structure BatchResult where
  noFilesMessage : Bool
  processed : List (String × String × FileOutcome)
  exitCode : Nat
deriving DecidableEq

/-- Directory-mode branch of `main` (src/main.py lines 154-169): filter
the entries by extension; when none match, print the message and return
(process exit code 0); otherwise run the batch loop. -/
def dirMain (entries : List FileEnv) : BatchResult :=
  let files := entries.filter (fun g => isSupportedName g.name)
  if files.isEmpty then ⟨true, [], 0⟩
  else
    let r := runBatch files
    ⟨false, r.1, r.2⟩

/-! ## Helper lemmas -/

theorem process_single_file_ok (g : FileEnv) (h : ¬(g.present = true ∧ g.probe = none)) :
    process_single_file g = .ok (stepOutcome g) := by
  unfold process_single_file stepOutcome
  by_cases hp : g.present = false
  · simp [hp]
  · have hp' : g.present = true := by
      cases hgp : g.present
      · exact absurd hgp hp
      · rfl
    cases hprobe : g.probe with
    | none => exact absurd ⟨hp', hprobe⟩ h
    | some info =>
        simp only [hp', hp, hprobe, if_false, Bool.true_eq_false]
        split <;> rfl

theorem runBatch_total (l : List FileEnv) (h : ∀ g ∈ l, ¬(g.present = true ∧ g.probe = none)) :
    runBatch l = (l.map (fun g => (g.name, outputName g.name, stepOutcome g)), 0) := by
  induction l with
  | nil => rfl
  | cons g gs ih =>
      have hg := h g (List.mem_cons_self g gs)
      have hgs := fun x hx => h x (List.mem_cons_of_mem g hx)
      simp [runBatch, process_single_file_ok g hg, ih hgs]

theorem runBatch_abort (pre : List FileEnv) (f : FileEnv) (post : List FileEnv)
    (hpre : ∀ g ∈ pre, ¬(g.present = true ∧ g.probe = none))
    (hf : f.present = true) (hprobe : f.probe = none) :
    runBatch (pre ++ f :: post)
      = (pre.map (fun g => (g.name, outputName g.name, stepOutcome g)), 1) := by
  induction pre with
  | nil =>
      simp [runBatch, process_single_file, hf, hprobe]
  | cons g gs ih =>
      have hg := hpre g (List.mem_cons_self g gs)
      have hgs := fun x hx => hpre x (List.mem_cons_of_mem g hx)
      simp [runBatch, process_single_file_ok g hg, ih hgs]

theorem mismatchFor_eq_nil_iff (k e : String) (a : Option String) :
    mismatchFor k e a = [] ↔ a.getD "unknown" = e := by
  simp only [mismatchFor]
  split <;> simp_all

theorem filter_mismatchFor_self (k e : String) (a : Option String) :
    (mismatchFor k e a).filter (fun m => m.field == k) = mismatchFor k e a := by
  simp only [mismatchFor]
  split <;> simp

theorem filter_mismatchFor_other (k e k' : String) (a : Option String) (h : k ≠ k') :
    (mismatchFor k e a).filter (fun m => m.field == k') = [] := by
  simp only [mismatchFor]
  split <;> simp [h]

theorem getD_unknown_eq_iff (a : Option String) (e : String) (h : e ≠ "unknown") :
    a.getD "unknown" = e ↔ a = some e := by
  cases a <;> simp [Option.getD]
  exact fun hh => absurd hh.symm h

theorem filter_mismatches_pix (d : ProbeInfo) :
    (mismatches d).filter (fun m => m.field == "pix_fmt")
      = (if d.pix_fmt.getD "unknown" = "yuv420p" then []
         else [⟨"pix_fmt", "yuv420p", d.pix_fmt.getD "unknown"⟩]) := by
  unfold mismatches
  rw [List.filter_append, List.filter_append, List.filter_append]
  rw [filter_mismatchFor_self,
      filter_mismatchFor_other _ _ _ _ (by decide),
      filter_mismatchFor_other _ _ _ _ (by decide),
      filter_mismatchFor_other _ _ _ _ (by decide)]
  simp only [mismatchFor, List.append_nil]
  split <;> simp_all

theorem filter_mismatches_space (d : ProbeInfo) :
    (mismatches d).filter (fun m => m.field == "color_space")
      = (if d.color_space.getD "unknown" = "bt709" then []
         else [⟨"color_space", "bt709", d.color_space.getD "unknown"⟩]) := by
  unfold mismatches
  rw [List.filter_append, List.filter_append, List.filter_append]
  rw [filter_mismatchFor_other _ _ _ _ (by decide),
      filter_mismatchFor_self,
      filter_mismatchFor_other _ _ _ _ (by decide),
      filter_mismatchFor_other _ _ _ _ (by decide)]
  simp only [mismatchFor, List.nil_append, List.append_nil]
  split <;> simp_all

theorem filter_mismatches_primaries (d : ProbeInfo) :
    (mismatches d).filter (fun m => m.field == "color_primaries")
      = (if d.color_primaries.getD "unknown" = "bt709" then []
         else [⟨"color_primaries", "bt709", d.color_primaries.getD "unknown"⟩]) := by
  unfold mismatches
  rw [List.filter_append, List.filter_append, List.filter_append]
  rw [filter_mismatchFor_other _ _ _ _ (by decide),
      filter_mismatchFor_other _ _ _ _ (by decide),
      filter_mismatchFor_self,
      filter_mismatchFor_other _ _ _ _ (by decide)]
  simp only [mismatchFor, List.nil_append, List.append_nil]
  split <;> simp_all

theorem filter_mismatches_transfer (d : ProbeInfo) :
    (mismatches d).filter (fun m => m.field == "color_transfer")
      = (if d.color_transfer.getD "unknown" = "bt709" then []
         else [⟨"color_transfer", "bt709", d.color_transfer.getD "unknown"⟩]) := by
  unfold mismatches
  rw [List.filter_append, List.filter_append, List.filter_append]
  rw [filter_mismatchFor_other _ _ _ _ (by decide),
      filter_mismatchFor_other _ _ _ _ (by decide),
      filter_mismatchFor_other _ _ _ _ (by decide),
      filter_mismatchFor_self]
  simp only [mismatchFor, List.nil_append, List.append_nil]
  split <;> simp_all

/-! ## Claims -/

/-- Claim C1, counterexample: the claim says a probe failure in batch mode
is contained to that file and the batch exits 0; in the code
`get_video_info` calls `sys.exit(1)` on probe failure, so a batch of
`bad.mp4` (probe fails) followed by `good.mp4` (would succeed) exits with
code 1 and processes no file at all — `good.mp4` is never reached. -/
theorem claim_C1_counterexample :
    (dirMain [⟨"bad.mp4", true, none, true⟩,
       ⟨"good.mp4", true, some ⟨some "bt709", some "bt709", some "bt709", some "yuv420p"⟩,
        true⟩]).exitCode = 1
    ∧ (dirMain [⟨"bad.mp4", true, none, true⟩,
         ⟨"good.mp4", true, some ⟨some "bt709", some "bt709", some "bt709", some "yuv420p"⟩,
          true⟩]).processed = [] := by
  decide

/-- Claim C1, amended: in directory (batch) mode a probe failure is NOT
contained to the failing file: `get_video_info`'s `sys.exit(1)` terminates
the whole process with exit code 1, files after the failing one are never
processed, and only the files before it keep their per-file outcomes
(missing inputs are skipped and encode failures are contained, but probe
failures are not). -/
theorem claim_C1_probe_failure_aborts_batch
    (entries pre post : List FileEnv) (f : FileEnv)
    (hsplit : entries.filter (fun g => isSupportedName g.name) = pre ++ f :: post)
    (hpre : ∀ g ∈ pre, ¬(g.present = true ∧ g.probe = none))
    (hf : f.present = true) (hprobe : f.probe = none) :
    (dirMain entries).exitCode = 1
    ∧ (dirMain entries).processed
        = pre.map (fun g => (g.name, outputName g.name, stepOutcome g)) := by
  have hne : (pre ++ f :: post).isEmpty = false := by
    cases pre <;> simp
  simp only [dirMain, hsplit, hne, Bool.false_eq_true, if_false,
    runBatch_abort pre f post hpre hf hprobe]
  simp

/-- Claim C1, witness for the amended theorem: a batch of a missing file,
then a probe-failing file, then a good file exits 1 having processed only
the first (skipped) job. -/
theorem claim_C1_probe_failure_aborts_batch_witness :
    (dirMain [⟨"skip.mp4", false, none, true⟩, ⟨"bad.mp4", true, none, true⟩,
       ⟨"good.mp4", true, some ⟨some "bt709", some "bt709", some "bt709", some "yuv420p"⟩,
        true⟩]).exitCode = 1
    ∧ (dirMain [⟨"skip.mp4", false, none, true⟩, ⟨"bad.mp4", true, none, true⟩,
         ⟨"good.mp4", true, some ⟨some "bt709", some "bt709", some "bt709", some "yuv420p"⟩,
          true⟩]).processed
        = [("skip.mp4", "skip_normalized.mp4", FileOutcome.skippedMissing)] := by
  have h := claim_C1_probe_failure_aborts_batch
    [⟨"skip.mp4", false, none, true⟩, ⟨"bad.mp4", true, none, true⟩,
     ⟨"good.mp4", true, some ⟨some "bt709", some "bt709", some "bt709", some "yuv420p"⟩, true⟩]
    [⟨"skip.mp4", false, none, true⟩]
    [⟨"good.mp4", true, some ⟨some "bt709", some "bt709", some "bt709", some "yuv420p"⟩, true⟩]
    ⟨"bad.mp4", true, none, true⟩ (by decide) (by decide) rfl rfl
  refine ⟨h.1, ?_⟩
  rw [h.2]
  decide

/-- Claim C2, counterexample: the claim says all four fields are
lowercase-normalized and absent fields default to "unknown"; in the code a
probe response with transfer "SMPTE2084" and the other fields absent
yields colorSpace "" (not "unknown") and a transfer that is not
lowercase-normalized. -/
theorem claim_C2_counterexample :
    (mkMetadata ⟨some "SMPTE2084", none, none, none⟩).colorSpace ≠ "unknown"
    ∧ (mkMetadata ⟨some "SMPTE2084", none, none, none⟩).transfer
        ≠ lowerStr (mkMetadata ⟨some "SMPTE2084", none, none, none⟩).transfer := by
  decide

/-- Claim C2, amended: transfer is taken verbatim from the probe response
(no lowercase normalization) and defaults to "unknown" when the field is
absent; colorSpace, primaries and pixelFormat are lowercase-normalized and
default to the empty string — not "unknown" — when the field is absent or
null. No field is ever null/absent on the record itself. -/
theorem claim_C2_metadata_fields (info : ProbeInfo) :
    (mkMetadata info).transfer = info.color_transfer.getD "unknown"
    ∧ (info.color_transfer = none → (mkMetadata info).transfer = "unknown")
    ∧ (info.color_space = none → (mkMetadata info).colorSpace = "")
    ∧ (info.color_primaries = none → (mkMetadata info).primaries = "")
    ∧ (info.pix_fmt = none → (mkMetadata info).pixelFormat = "")
    ∧ (mkMetadata info).colorSpace = lowerStr (info.color_space.getD "")
    ∧ (mkMetadata info).primaries = lowerStr (info.color_primaries.getD "")
    ∧ (mkMetadata info).pixelFormat = lowerStr (info.pix_fmt.getD "") := by
  refine ⟨rfl, ?_, ?_, ?_, ?_, rfl, rfl, rfl⟩ <;> intro h <;> simp [mkMetadata, h] <;> rfl

/-- Claim C2, witness for the amended theorem at the all-absent probe
response. -/
theorem claim_C2_metadata_fields_witness :
    (mkMetadata ⟨none, none, none, none⟩).transfer = "unknown"
    ∧ (mkMetadata ⟨none, none, none, none⟩).colorSpace = "" :=
  ⟨(claim_C2_metadata_fields ⟨none, none, none, none⟩).2.1 rfl,
   (claim_C2_metadata_fields ⟨none, none, none, none⟩).2.2.1 rfl⟩

/-- Claim C3: for every metadata record whose transfer is neither
"arib-std-b67" nor "smpte2084", classification is HeuristicHDR exactly
when primaries or colorSpace contains "bt2020", or pixelFormat is in the
fixed 10/12-bit planar set or contains "10le" or "12le"; otherwise it is
SDR. -/
theorem claim_C3_heuristic_hdr_iff (m : StreamMetadata)
    (h1 : m.transfer ≠ "arib-std-b67") (h2 : m.transfer ≠ "smpte2084") :
    classify m =
      (if (containsSub m.primaries "bt2020" || containsSub m.colorSpace "bt2020"
          || hdr_pix_fmt_set.contains m.pixelFormat
          || containsSub m.pixelFormat "10le" || containsSub m.pixelFormat "12le") = true
       then ColorProfile.HeuristicHDR else ColorProfile.SDR) := by
  cases hA : containsSub m.primaries "bt2020" <;>
    cases hB : containsSub m.colorSpace "bt2020" <;>
    cases hC : hdr_pix_fmt_set.contains m.pixelFormat <;>
    cases hD : containsSub m.pixelFormat "10le" <;>
    cases hE : containsSub m.pixelFormat "12le" <;>
    simp_all [classify, is_hdr, beq_iff_eq]

/-- Claim C3, witness: an unknown transfer with bt2020 primaries
classifies as HeuristicHDR, and plain bt709/yuv420p metadata classifies
as SDR. -/
theorem claim_C3_heuristic_hdr_iff_witness :
    classify ⟨"unknown", "", "bt2020", ""⟩ = ColorProfile.HeuristicHDR
    ∧ classify ⟨"bt709", "bt709", "bt709", "yuv420p"⟩ = ColorProfile.SDR := by
  have hh := claim_C3_heuristic_hdr_iff ⟨"unknown", "", "bt2020", ""⟩ (by decide) (by decide)
  have hs := claim_C3_heuristic_hdr_iff ⟨"bt709", "bt709", "bt709", "yuv420p"⟩
    (by decide) (by decide)
  rw [hh, hs]
  constructor <;> decide

/-- Claim C4: transfer "arib-std-b67" classifies as HLG and transfer
"smpte2084" as PQ, regardless of the other three fields: the first two
branches of `build_ffmpeg_command` test only the transfer. -/
theorem claim_C4_transfer_precedence (m : StreamMetadata) :
    (m.transfer = "arib-std-b67" → classify m = .HLG)
    ∧ (m.transfer = "smpte2084" → classify m = .PQ) := by
  constructor
  · intro h
    simp [classify, h]
  · intro h
    simp [classify, h]

/-- Claim C4, witness: concrete HLG and PQ records whose other fields are
SDR-looking still classify by transfer alone. -/
theorem claim_C4_transfer_precedence_witness :
    classify ⟨"arib-std-b67", "bt709", "bt709", "yuv420p"⟩ = ColorProfile.HLG
    ∧ classify ⟨"smpte2084", "bt709", "bt709", "yuv420p"⟩ = ColorProfile.PQ :=
  ⟨(claim_C4_transfer_precedence ⟨"arib-std-b67", "bt709", "bt709", "yuv420p"⟩).1 rfl,
   (claim_C4_transfer_precedence ⟨"smpte2084", "bt709", "bt709", "yuv420p"⟩).2 rfl⟩

/-- Claim C5: the HeuristicHDR branch of `build_ffmpeg_command` builds the
identical filter chain — hence the identical ordered stage list — as the
PQ branch. -/
theorem claim_C5_heuristic_plan_equals_pq :
    filter_chain ColorProfile.HeuristicHDR = filter_chain ColorProfile.PQ
    ∧ planStages ColorProfile.HeuristicHDR = planStages ColorProfile.PQ :=
  ⟨rfl, rfl⟩

/-- Claim C6: the scenario-1 metadata classifies as PQ, and the PQ plan
contains, in order, the 10-bit forcing stage (format=p010le), the
linearize stage with npl=100, the Hable tone-map stage with desat=0, and
ends with the conversion to bt709 and the yuv420p format stage; the full
stage list is also given. -/
theorem claim_C6_pq_scenario :
    classify (mkMetadata ⟨some "smpte2084", some "bt2020nc", some "bt2020",
        some "yuv420p10le"⟩) = ColorProfile.PQ
    ∧ isSubseqOf ["format=p010le", "zscale=t=linear:npl=100",
        "tonemap=tonemap=hable:desat=0", "zscale=t=bt709:m=bt709:r=tv", "format=yuv420p"]
        (planStages ColorProfile.PQ) = true
    ∧ planStages ColorProfile.PQ
        = ["format=p010le", "zscale=t=linear:npl=100", "format=gbrpf32le",
           "zscale=p=bt709", "tonemap=tonemap=hable:desat=0",
           "zscale=t=bt709:m=bt709:r=tv", "format=yuv420p"] := by
  refine ⟨by decide, by decide, by decide⟩

/-- Claim C7: a file passes verification exactly when all four probed
fields are present and equal the fixed target; each field whose actual
value (with "unknown" substituted for an absent field) differs from the
expected value contributes exactly one mismatch entry naming that field
with its expected and actual values; passing is exactly the emptiness of
the mismatch list. -/
theorem claim_C7_verifier_fields (d : ProbeInfo) :
    (check_file (some d) = true ↔
      (d.pix_fmt = some "yuv420p" ∧ d.color_space = some "bt709"
        ∧ d.color_primaries = some "bt709" ∧ d.color_transfer = some "bt709"))
    ∧ (mismatches d).filter (fun m => m.field == "pix_fmt")
        = (if d.pix_fmt.getD "unknown" = "yuv420p" then []
           else [⟨"pix_fmt", "yuv420p", d.pix_fmt.getD "unknown"⟩])
    ∧ (mismatches d).filter (fun m => m.field == "color_space")
        = (if d.color_space.getD "unknown" = "bt709" then []
           else [⟨"color_space", "bt709", d.color_space.getD "unknown"⟩])
    ∧ (mismatches d).filter (fun m => m.field == "color_primaries")
        = (if d.color_primaries.getD "unknown" = "bt709" then []
           else [⟨"color_primaries", "bt709", d.color_primaries.getD "unknown"⟩])
    ∧ (mismatches d).filter (fun m => m.field == "color_transfer")
        = (if d.color_transfer.getD "unknown" = "bt709" then []
           else [⟨"color_transfer", "bt709", d.color_transfer.getD "unknown"⟩])
    ∧ check_file (some d) = (mismatches d).isEmpty := by
  refine ⟨?_, filter_mismatches_pix d, filter_mismatches_space d,
    filter_mismatches_primaries d, filter_mismatches_transfer d, rfl⟩
  unfold check_file mismatches
  rw [List.isEmpty_iff]
  simp only [List.append_eq_nil, mismatchFor_eq_nil_iff]
  rw [getD_unknown_eq_iff _ _ (by decide), getD_unknown_eq_iff _ _ (by decide),
      getD_unknown_eq_iff _ _ (by decide), getD_unknown_eq_iff _ _ (by decide)]
  tauto

/-- Claim C8: the verifier exits 0 exactly when at least one file was
found and all found files passed; when some found file fails it ends in
the someFailed condition with exit code 1; the noFiles condition (also
exit code 1) occurs exactly when the glob found nothing, and is a distinct
condition from someFailed. -/
theorem claim_C8_verify_exit_codes (files : List (Option ProbeInfo)) :
    (verifyExitCode (verify_main files) = 0 ↔ files ≠ [] ∧ files.all check_file = true)
    ∧ (verify_main files = .noFiles ↔ files = [])
    ∧ (files = [] → verifyExitCode (verify_main files) = 1)
    ∧ ((∃ f ∈ files, check_file f = false) →
        verify_main files = .someFailed ∧ verifyExitCode (verify_main files) = 1)
    ∧ VerifyOutcome.noFiles ≠ VerifyOutcome.someFailed := by
  refine ⟨?_, ?_, ?_, ?_, by decide⟩ <;>
    unfold verify_main
  · by_cases he : files.isEmpty
    · rw [List.isEmpty_iff] at he
      simp [he, verifyExitCode]
    · rw [List.isEmpty_iff] at he
      by_cases ha : files.all check_file
      · simp [he, ha, verifyExitCode, List.isEmpty_iff]
      · simp [he, ha, verifyExitCode, List.isEmpty_iff]
  · by_cases he : files.isEmpty
    · rw [List.isEmpty_iff] at he
      simp [he]
    · rw [List.isEmpty_iff] at he
      by_cases ha : files.all check_file <;> simp [he, ha, List.isEmpty_iff]
  · intro he
    simp [he, verifyExitCode]
  · intro hex
    obtain ⟨f, hf, hc⟩ := hex
    have hne : files ≠ [] := by
      intro hnil
      rw [hnil] at hf
      exact absurd hf (List.not_mem_nil f)
    have hall : files.all check_file = false := by
      rw [List.all_eq_false]
      exact ⟨f, hf, by simp [hc]⟩
    have he : files.isEmpty = false := by
      cases h : files.isEmpty
      · rfl
      · exact absurd (List.isEmpty_iff.mp h) hne
    simp [he, hall, verifyExitCode]

/-- Claim C8, witness: one passing file gives exit code 0. -/
theorem claim_C8_verify_exit_codes_witness :
    verifyExitCode (verify_main
      [some ⟨some "bt709", some "bt709", some "bt709", some "yuv420p"⟩]) = 0 :=
  (claim_C8_verify_exit_codes
    [some ⟨some "bt709", some "bt709", some "bt709", some "yuv420p"⟩]).1.mpr
    ⟨by decide, by decide⟩

/-- Claim C9: when no file in the batch makes the probe abort, the
processed jobs are exactly the immediate entries whose (case-insensitive)
extension is in the four-element allow-list, in order, each with output
name stem + "_normalized" + original extension; when no entry matches,
the run reports the no-files message and ends gracefully with exit code
0; and the scenario-2 names behave as claimed. -/
theorem claim_C9_directory_selection (entries : List FileEnv)
    (hok : ∀ g ∈ entries, ¬(g.present = true ∧ g.probe = none)) :
    (dirMain entries).processed
      = (entries.filter (fun g => isSupportedName g.name)).map
          (fun g => (g.name, outputName g.name, stepOutcome g))
    ∧ (entries.filter (fun g => isSupportedName g.name) = [] →
        (dirMain entries).noFilesMessage = true ∧ (dirMain entries).exitCode = 0)
    ∧ (entries.filter (fun g => isSupportedName g.name) ≠ [] →
        (dirMain entries).exitCode = 0)
    ∧ outputName "a.mp4" = "a_normalized.mp4"
    ∧ outputName "b.mov" = "b_normalized.mov"
    ∧ isSupportedName "a.mp4" = true
    ∧ isSupportedName "b.mov" = true
    ∧ isSupportedName "readme.txt" = false := by
  have hfil : ∀ g ∈ entries.filter (fun g => isSupportedName g.name),
      ¬(g.present = true ∧ g.probe = none) := by
    intro g hg
    exact hok g (List.mem_of_mem_filter hg)
  unfold dirMain
  by_cases he : (entries.filter (fun g => isSupportedName g.name)).isEmpty
  · rw [List.isEmpty_iff] at he
    simp only [he]
    refine ⟨by simp, by simp, by simp [he], by decide, by decide, by decide, by decide,
      by decide⟩
  · have he' : (entries.filter (fun g => isSupportedName g.name)).isEmpty = false := by
      cases h : (entries.filter (fun g => isSupportedName g.name)).isEmpty
      · rfl
      · exact absurd h he
    simp only [he']
    rw [runBatch_total _ hfil]
    have hne : entries.filter (fun g => isSupportedName g.name) ≠ [] := by
      intro hnil
      rw [hnil] at he'
      simp at he'
    refine ⟨by simp, fun h => absurd h hne, by simp, by decide, by decide, by decide,
      by decide, by decide⟩

/-- Claim C9, witness: the scenario-2 batch a.mp4, b.mov, readme.txt
processes exactly a.mp4 and b.mov, with the claimed output names. -/
theorem claim_C9_directory_selection_witness :
    (dirMain [⟨"a.mp4", true, some ⟨some "bt709", some "bt709", some "bt709", some "yuv420p"⟩,
        true⟩,
      ⟨"b.mov", true, some ⟨some "bt709", some "bt709", some "bt709", some "yuv420p"⟩, true⟩,
      ⟨"readme.txt", true, some ⟨some "bt709", some "bt709", some "bt709", some "yuv420p"⟩,
        true⟩]).processed
      = [("a.mp4", "a_normalized.mp4", FileOutcome.encoded),
         ("b.mov", "b_normalized.mov", FileOutcome.encoded)] := by
  have h := claim_C9_directory_selection
    [⟨"a.mp4", true, some ⟨some "bt709", some "bt709", some "bt709", some "yuv420p"⟩, true⟩,
     ⟨"b.mov", true, some ⟨some "bt709", some "bt709", some "bt709", some "yuv420p"⟩, true⟩,
     ⟨"readme.txt", true, some ⟨some "bt709", some "bt709", some "bt709", some "yuv420p"⟩,
       true⟩] (by decide)
  rw [h.1]
  decide

/-- Claim C10: a probe response missing one of the four checked fields
gets "unknown" substituted as that field's actual value and exactly one
mismatch entry recorded for it, and any missing field makes the file fail
verification (no error is raised: the comparison proceeds normally). -/
theorem claim_C10_missing_fields_fail (d : ProbeInfo) :
    (d.pix_fmt = none →
      (mismatches d).filter (fun m => m.field == "pix_fmt")
        = [⟨"pix_fmt", "yuv420p", "unknown"⟩])
    ∧ (d.color_space = none →
      (mismatches d).filter (fun m => m.field == "color_space")
        = [⟨"color_space", "bt709", "unknown"⟩])
    ∧ (d.color_primaries = none →
      (mismatches d).filter (fun m => m.field == "color_primaries")
        = [⟨"color_primaries", "bt709", "unknown"⟩])
    ∧ (d.color_transfer = none →
      (mismatches d).filter (fun m => m.field == "color_transfer")
        = [⟨"color_transfer", "bt709", "unknown"⟩])
    ∧ ((d.pix_fmt = none ∨ d.color_space = none ∨ d.color_primaries = none
        ∨ d.color_transfer = none) → check_file (some d) = false) := by
  refine ⟨?_, ?_, ?_, ?_, ?_⟩
  · intro h
    rw [filter_mismatches_pix]
    simp [h]
  · intro h
    rw [filter_mismatches_space]
    simp [h]
  · intro h
    rw [filter_mismatches_primaries]
    simp [h]
  · intro h
    rw [filter_mismatches_transfer]
    simp [h]
  · intro h
    unfold check_file
    rw [Bool.eq_false_iff]
    intro hemp
    rw [List.isEmpty_iff] at hemp
    unfold mismatches at hemp
    simp only [List.append_eq_nil, mismatchFor_eq_nil_iff] at hemp
    rcases h with h | h | h | h <;> rw [h] at hemp <;> simp [Option.getD] at hemp

/-- Claim C10, witness: the all-absent probe response records the
"unknown" mismatch for pix_fmt and fails verification. -/
theorem claim_C10_missing_fields_fail_witness :
    (mismatches ⟨none, none, none, none⟩).filter (fun m => m.field == "pix_fmt")
      = [⟨"pix_fmt", "yuv420p", "unknown"⟩]
    ∧ check_file (some ⟨none, none, none, none⟩) = false :=
  ⟨(claim_C10_missing_fields_fail ⟨none, none, none, none⟩).1 rfl,
   (claim_C10_missing_fields_fail ⟨none, none, none, none⟩).2.2.2.2 (Or.inl rfl)⟩

end VideoNorm
